import Mathlib

/-!
Verification development for the Tastyworks CSV data validator
(data_validator.py).  The Python class TastyworksDataValidator is embedded
shallowly: a CSV file is its header plus its records, a missing cell models an
empty field (NaN), and each validator method becomes a pure Lean function.
Uncaught Python exceptions are modelled by the error branch of Except.
Timestamps are integer time coordinates: the claims under study depend only on
parseable versus unparseable and on ordering, never on the concrete date
grammar, so a timestamp string parses exactly when it is a signed integer
literal.  Numeric cells are exact decimals, a pair of integer mantissa and
power-of-ten scale, so the zero, magnitude and wholeness tests of the checks
are the exact tests pandas performs on the coerced values.
-/

/-- Char-list test that the first list is an initial segment of the second. -/
def charsBeginWith : List Char → List Char → Bool
  | [], _ => true
  | _ :: _, [] => false
  | a :: as, b :: bs => a == b && charsBeginWith as bs

/-- Char-list test that the first list occurs inside the second. -/
def charsContain (needle : List Char) : List Char → Bool
  | [] => charsBeginWith needle []
  | c :: cs => charsBeginWith needle (c :: cs) || charsContain needle cs

/-- Substring test mirroring the Python membership test on strings that
validate_file_format applies to the first line. -/
def strContains (hay needle : String) : Bool :=
  charsContain needle.data hay.data

/-- Suffix test mirroring the Python endswith used for the currency-pair
exemption. -/
def strEndsWith (s suffix : String) : Bool :=
  charsBeginWith suffix.data.reverse s.data.reverse

/-- Value of a decimal digit character. -/
def digitVal (c : Char) : Option Nat :=
  if decide ('0' ≤ c) && decide (c ≤ '9') then some (c.toNat - 48) else none

/-- Accumulating digit parse. -/
def digitsToNatAux : List Char → Nat → Option Nat
  | [], acc => some acc
  | c :: cs, acc =>
    match digitVal c with
    | none => none
    | some d => digitsToNatAux cs (acc * 10 + d)

/-- Parse of a non-empty all-digit char list. -/
def digitsToNat : List Char → Option Nat
  | [] => none
  | c :: cs => digitsToNatAux (c :: cs) 0

/-- A parsed tabular file: header names plus records; a missing cell models an
empty CSV field, which pandas reads as NaN. -/
structure Csv where
  header : List String
  records : List (List (Option String))
deriving DecidableEq

/-- First line of the file as sniffed by validate_file_format. -/
def Csv.firstLine (c : Csv) : String := String.intercalate "," c.header

/-- Column lookup by header name; none when the header is absent.  A record
shorter than the header yields missing cells, as pandas does. -/
def Csv.column (c : Csv) (name : String) : Option (List (Option String)) :=
  (c.header.findIdx? (· == name)).map fun i => c.records.map fun r => (r.get? i).join

/-- Shallow model of the pandas datetime parse used through parse_dates: a
timestamp string parses exactly when it is a signed integer literal, the
integer being the time coordinate. -/
def parseDate (s : String) : Option Int :=
  match s.data with
  | '-' :: rest => (digitsToNat rest).map fun n => -(n : Int)
  | cs => (digitsToNat cs).map fun n => (n : Int)

/-- An exact decimal value mant / 10 ^ scale, the model of a numeric cell
coerced by pandas to_numeric. -/
structure Decimal where
  mant : Int
  scale : Nat
deriving DecidableEq

/-- The pandas test value == 0 on a coerced decimal. -/
def Decimal.isZero (d : Decimal) : Bool := decide (d.mant = 0)

/-- The pandas test abs(value) > 1000000 on a coerced decimal, exactly. -/
def Decimal.isLarge (d : Decimal) : Bool :=
  decide ((1000000 : Int) * (10 : Int) ^ d.scale < |d.mant|)

/-- The pandas test value mod 1 not equal 0 on a coerced decimal, exactly. -/
def Decimal.isFractional (d : Decimal) : Bool :=
  decide (d.mant % (10 : Int) ^ d.scale ≠ 0)

/-- Exact rational value of a decimal. -/
def Decimal.toRat (d : Decimal) : ℚ := (d.mant : ℚ) / (10 : ℚ) ^ d.scale

/-- Split a char list at the first dot. -/
def splitAtDot : List Char → (List Char × Option (List Char))
  | [] => ([], none)
  | c :: rest =>
    if c = '.' then ([], some rest)
    else
      let (w, fr) := splitAtDot rest
      (c :: w, fr)

/-- Unsigned decimal parse: digits with an optional fractional digit part. -/
def parseNumberChars (cs : List Char) : Option Decimal :=
  match splitAtDot cs with
  | (w, none) => (digitsToNat w).map fun n => ⟨(n : Int), 0⟩
  | (w, fr?) =>
    match fr? with
    | none => none
    | some fr =>
      match digitsToNat w, digitsToNat fr with
      | some wn, some fn => some ⟨(wn : Int) * (10 : Int) ^ fr.length + (fn : Int), fr.length⟩
      | _, _ => none

/-- Shallow model of pandas to_numeric with coercion: optional sign, digits,
optional fractional digits; anything else coerces to missing (NaN). -/
def parseNumber (s : String) : Option Decimal :=
  match s.data with
  | '-' :: rest => (parseNumberChars rest).map fun d => ⟨-d.mant, d.scale⟩
  | cs => parseNumberChars cs

/-- Columnwise to_numeric with coercion: missing stays missing. -/
def toNumeric (cells : List (Option String)) : List (Option Decimal) :=
  cells.map fun c => c.bind parseNumber

/-- Column-level behaviour of pandas parse_dates: empty cells become NaT, and
the conversion of the column succeeds only when every present entry parses;
otherwise the whole column is left unconverted (object dtype). -/
def convertDates : List (Option String) → Option (List (Option Int))
  | [] => some []
  | none :: rest => (convertDates rest).map (none :: ·)
  | some s :: rest =>
    match parseDate s with
    | none => none
    | some d => (convertDates rest).map (some d :: ·)

/-- Helper for first-seen deduplication. -/
def dedupAux : List String → List String → List String
  | [], _ => []
  | x :: xs, seen => if x ∈ seen then dedupAux xs seen else x :: dedupAux xs (x :: seen)

/-- Distinct values in order of first appearance, matching pandas unique. -/
def dedupFS (l : List String) : List String := dedupAux l []

/-- Count of missing entries in a column, mirroring isna().sum(). -/
def isnaCount (cells : List (Option String)) : Nat :=
  (cells.filter Option.isNone).length

/-- The two schema variants recognised by the validator. -/
inductive FormatType
  | new
  | legacy
deriving DecidableEq

def new_format_headers : List String :=
  ["Date", "Type", "Sub Type", "Action", "Symbol", "Value"]

def legacy_format_headers : List String :=
  ["Date/Time", "Transaction Code", "Transaction Subcode", "Amount"]

/-- Mirrors validate_file_format: the New token set is tested first against the
raw first line, then the Legacy set; with no match the validator records the
error string below and refuses the file. -/
def validate_file_format (first_line : String) : Except String FormatType :=
  if new_format_headers.any (strContains first_line) then .ok .new
  else if legacy_format_headers.any (strContains first_line) then .ok .legacy
  else .error "Invalid CSV format - missing required headers"

/-- The dataframe produced by load_data.  dtParsed holds the converted
timestamp column when the parse_dates conversion succeeded (missing cells
become NaT, modelled as none); it is none when some timestamp string failed to
parse, in which case pandas silently leaves the column as unconverted text. -/
structure LoadedFrame where
  cols : List String
  records : List (List (Option String))
  dtParsed : Option (List (Option Int))
deriving DecidableEq

/-- Raw cells of a column of the loaded frame; empty when the column is
absent (callers guard on membership first, as the Python code does). -/
def LoadedFrame.colCells (f : LoadedFrame) (name : String) : List (Option String) :=
  match f.cols.findIdx? (· == name) with
  | none => []
  | some i => f.records.map fun r => (r.get? i).join

/-- Mirrors pd.read_csv with parse_dates on Date/Time: a missing Date/Time
column raises (caught by load_data as a load error); otherwise the frame always
loads, the timestamp column being converted only when every present entry
parses. -/
def readCsvDates (c : Csv) : Except String LoadedFrame :=
  match c.column "Date/Time" with
  | none => .error "Missing column provided to parse_dates: Date/Time"
  | some cells => .ok ⟨c.header, c.records, convertDates cells⟩

/-- Mirrors load_data.  For the New variant the external transform_csv
collaborator (module tw_pnl, not part of this repository) is modelled from the
spec as an already-computed result: textual tabular data in Legacy column
shape, or a failure that load_data surfaces as a load error. -/
def load_data (fmt : FormatType) (transformed : Except String Csv) (file : Csv) :
    Except String LoadedFrame :=
  match fmt with
  | .new =>
    match transformed with
    | .error e => .error e
    | .ok t => readCsvDates t
  | .legacy => readCsvDates file

/-- Rule 1 of validate_data_quality: missing-value counts for the critical
columns, in source order.  When the timestamp column was converted, its NaT
entries sit exactly at the raw missing cells, so isna over the raw cells is
the isna of the live column in either dtype. -/
def missingWarnings (f : LoadedFrame) : List String :=
  ["Date/Time", "Amount", "Symbol"].filterMap fun col =>
    if col ∈ f.cols then
      let m := isnaCount (f.colCells col)
      if m > 0 then some s!"{m} missing values in {col}" else none
    else none

/-- Count of rows whose timestamp is strictly in the future of the reference
time; NaT compares false, so only present entries count. -/
def futureCount (now : Int) (vals : List (Option Int)) : Nat :=
  ((vals.filterMap id).filter fun t => decide (now < t)).length

/-- Rules 2 and 3 of validate_data_quality, the Date/Time based checks.  On a
frame whose timestamp column stayed unconverted text, max minus min is a
Python string subtraction and raises TypeError. -/
def dateRangeWarnings (now : Int) (f : LoadedFrame) : Except String (List String) :=
  if "Date/Time" ∈ f.cols then
    match f.dtParsed with
    | none => .error "TypeError: unsupported operand types for subtraction"
    | some vals =>
      let present := vals.filterMap id
      let rangeW :=
        match present.min?, present.max? with
        | some lo, some hi =>
          if hi - lo > 2000 then
            [s!"Large date range detected: {hi - lo} days ({lo} to {hi})"]
          else []
        | _, _ => []
      let fut := futureCount now vals
      .ok (rangeW ++ if fut > 0 then [s!"{fut} transactions have future dates"] else [])
  else .ok []

/-- Count of rows with coerced amount equal to zero whose Transaction Code is
not the Receive Deliver kind; a missing kind is not in the exempted set, so it
counts. -/
def zeroAmountCount (amounts : List (Option Decimal)) (kinds : List (Option String)) : Nat :=
  ((amounts.zip kinds).filter fun p =>
    p.1.any Decimal.isZero && ! decide (p.2 = some "Receive Deliver")).length

/-- Rules 4 and 5 of validate_data_quality, the Amount based checks.  The
zero-amount mask dereferences the Transaction Code column without a guard, so
its absence raises KeyError whenever Amount is present. -/
def amountWarnings (f : LoadedFrame) : Except String (List String) :=
  if "Amount" ∈ f.cols then
    let amounts := toNumeric (f.colCells "Amount")
    let large := ((amounts.filterMap id).filter Decimal.isLarge).length
    let largeW := if large > 0 then [s!"{large} transactions with amounts > $1M"] else []
    if "Transaction Code" ∈ f.cols then
      let z := zeroAmountCount amounts (f.colCells "Transaction Code")
      .ok (largeW ++ if z > 0 then [s!"{z} transactions with zero amounts"] else [])
    else .error "KeyError: Transaction Code"
  else .ok []

/-- The symbol-shape pattern: one to ten characters, each an upper-case ASCII
letter or a slash. -/
def symbolOk (s : String) : Bool :=
  decide (1 ≤ s.data.length) && decide (s.data.length ≤ 10) &&
    s.data.all fun c => (decide ('A' ≤ c) && decide (c ≤ 'Z')) || decide (c = '/')

/-- Rule 6 of validate_data_quality: unusual symbol shapes, reporting at most
five distinct offenders in order of first appearance. -/
def symbolWarnings (f : LoadedFrame) : List String :=
  if "Symbol" ∈ f.cols then
    let symbols := (f.colCells "Symbol").filterMap id
    let unusual := symbols.filter fun s => ! symbolOk s
    if unusual.length > 0 then
      let uu := (dedupFS unusual).take 5
      [s!"Unusual symbol formats detected: {uu}"]
    else []
  else []

/-- Mirrors validate_data_quality on a loaded frame: warnings accumulate in
source order and an uncaught Python exception is the error branch.  The current
time is an explicit parameter standing for the datetime.now() call. -/
def validate_data_quality (now : Int) (f : LoadedFrame) : Except String (List String) :=
  match dateRangeWarnings now f with
  | .error e => .error e
  | .ok w23 =>
    match amountWarnings f with
    | .error e => .error e
    | .ok w45 => .ok (missingWarnings f ++ w23 ++ w45 ++ symbolWarnings f)

/-- Quantity cells of the rows carrying the given symbol, in file order. -/
def symbolQuantityCells (f : LoadedFrame) (sym : String) : List (Option String) :=
  (((f.colCells "Symbol").zip (f.colCells "Quantity")).filter fun p =>
    decide (p.1 = some sym)).map Prod.snd

/-- Count of quantities failing the wholeness test value mod 1 equal 0.  A
coerced NaN compares unequal to zero under the pandas modulo test, so missing
or unparseable quantities count as fractional. -/
def fractionalCount (cells : List (Option String)) : Nat :=
  ((toNumeric cells).filter fun q =>
    match q with
    | none => true
    | some d => d.isFractional).length

/-- Mirrors validate_transaction_consistency: per symbol in first-seen order,
skipping currency pairs whose symbol ends in /USD. -/
def validate_transaction_consistency (f : LoadedFrame) : List String :=
  if "Symbol" ∈ f.cols ∧ "Quantity" ∈ f.cols then
    (dedupFS ((f.colCells "Symbol").filterMap id)).filterMap fun sym =>
      if strEndsWith sym "/USD" then none
      else
        let n := fractionalCount (symbolQuantityCells f sym)
        if n > 0 then some s!"Fractional quantities found for {sym}: {n} transactions"
        else none
  else []

/-- Summary statistics record produced by generate_summary_stats. -/
structure SummaryStats where
  total_transactions : Nat
  date_range : Option String
  unique_symbols : Nat
  transaction_types : List (String × Nat)
  total_volume : ℚ
deriving DecidableEq

/-- Descending insertion by count. -/
def insertByCountDesc (p : String × Nat) : List (String × Nat) → List (String × Nat)
  | [] => [p]
  | q :: qs => if q.2 < p.2 then p :: q :: qs else q :: insertByCountDesc p qs

/-- Sort kind-count pairs by descending count, the order value_counts uses. -/
def sortByCountDesc : List (String × Nat) → List (String × Nat)
  | [] => []
  | p :: ps => insertByCountDesc p (sortByCountDesc ps)

/-- Mirrors value_counts().to_dict(): missing kinds are dropped, each distinct
kind is paired with its row count, and the pairs are listed in descending
order of count. -/
def valueCounts (cells : List (Option String)) : List (String × Nat) :=
  let vs := cells.filterMap id
  sortByCountDesc ((dedupFS vs).map fun k => (k, vs.count k))

/-- Rendering of an optional time point, NaT for a missing one. -/
def renderDate : Option Int → String
  | none => "NaT"
  | some d => toString d

/-- The stats record assembled from whichever columns exist. -/
def mkStats (f : LoadedFrame) (dr : Option String) : SummaryStats :=
  { total_transactions := f.records.length
    date_range := dr
    unique_symbols :=
      if "Symbol" ∈ f.cols then (dedupFS ((f.colCells "Symbol").filterMap id)).length else 0
    transaction_types :=
      if "Transaction Code" ∈ f.cols then valueCounts (f.colCells "Transaction Code") else []
    total_volume :=
      if "Amount" ∈ f.cols then
        (((toNumeric (f.colCells "Amount")).filterMap id).map fun d => |d.toRat|).sum
      else 0 }

/-- Mirrors generate_summary_stats.  A timestamp column left as unconverted
text makes the column minimum a plain string, and the date call on it raises
AttributeError. -/
def generate_summary_stats (f : LoadedFrame) : Except String SummaryStats :=
  if "Date/Time" ∈ f.cols then
    match f.dtParsed with
    | none => .error "AttributeError: str object has no attribute date"
    | some vals =>
      let present := vals.filterMap id
      let lo := renderDate present.min?
      let hi := renderDate present.max?
      .ok (mkStats f (some s!"{lo} to {hi}"))
  else .ok (mkStats f none)

/-- The aggregate result of one validation run. -/
structure Report where
  passed : Bool
  errors : List String
  warnings : List String
  stats : Option SummaryStats
deriving DecidableEq

/-- Mirrors run_full_validation: a format or load failure aborts with a single
error finding and neither warnings nor stats; otherwise the check stages run,
an uncaught stage exception propagates as the error branch, and a completed
run reports the accumulated warnings with passed true since the errors list
stayed empty. -/
def run_full_validation (transformed : Except String Csv) (file : Csv) (now : Int) :
    Except String Report :=
  match validate_file_format file.firstLine with
  | .error e => .ok ⟨false, [e], [], none⟩
  | .ok fmt =>
    match load_data fmt transformed file with
    | .error e => .ok ⟨false, [s!"Error loading data: {e}"], [], none⟩
    | .ok df =>
      match validate_data_quality now df with
      | .error e => .error e
      | .ok wq =>
        match generate_summary_stats df with
        | .error e => .error e
        | .ok st => .ok ⟨true, [], wq ++ validate_transaction_consistency df, some st⟩

/-- C1: format detection tests the New token set first on the input first
line; only when no New token matches is the Legacy set tested, a line matching
only Legacy tokens is classified Legacy, and a line with no token from either
set yields the missing-required-headers format error, after which the run
aborts with that single error and never reaches the loading stage, whatever
the transform collaborator would have returned. -/
theorem c1_format_detection_order (line : String) :
    (new_format_headers.any (strContains line) = true →
      validate_file_format line = .ok .new) ∧
    (new_format_headers.any (strContains line) = false →
      legacy_format_headers.any (strContains line) = true →
      validate_file_format line = .ok .legacy) ∧
    (new_format_headers.any (strContains line) = false →
      legacy_format_headers.any (strContains line) = false →
      validate_file_format line = .error "Invalid CSV format - missing required headers" ∧
      ∀ (transformed : Except String Csv) (file : Csv) (now : Int),
        file.firstLine = line →
        run_full_validation transformed file now =
          .ok ⟨false, ["Invalid CSV format - missing required headers"], [], none⟩) := by
  refine ⟨fun h1 => by simp [validate_file_format, h1], fun h1 h2 => by
    simp [validate_file_format, h1, h2], fun h1 h2 => ?_⟩
  have hv : validate_file_format line =
      .error "Invalid CSV format - missing required headers" := by
    simp [validate_file_format, h1, h2]
  refine ⟨hv, fun transformed file now hfl => ?_⟩
  unfold run_full_validation
  rw [hfl, hv]

theorem c1_format_detection_order_witness :
    validate_file_format "Date/Time" = .ok .new ∧
    validate_file_format "Amount" = .ok .legacy ∧
    run_full_validation (.error "na") ⟨["zzz"], []⟩ 0 =
      .ok ⟨false, ["Invalid CSV format - missing required headers"], [], none⟩ :=
  ⟨(c1_format_detection_order "Date/Time").1 (by decide),
   (c1_format_detection_order "Amount").2.1 (by decide) (by decide),
   ((c1_format_detection_order "zzz").2.2 (by decide) (by decide)).2 (.error "na")
     ⟨["zzz"], []⟩ 0 rfl⟩

/-- C2: a completed validation run passes exactly when its errors list is
empty (warnings never flip the outcome), and a format or load failure aborts
the run immediately with passed false, a single error finding, no warnings and
no summary stats. -/
theorem c2_passed_iff_no_errors
    (transformed : Except String Csv) (file : Csv) (now : Int) (rep : Report)
    (h : run_full_validation transformed file now = .ok rep) :
    ((rep.passed = true) ↔ rep.errors = []) ∧
    (rep.errors ≠ [] → rep.errors.length = 1 ∧ rep.warnings = [] ∧ rep.stats = none) ∧
    (∀ e, validate_file_format file.firstLine = .error e → rep = ⟨false, [e], [], none⟩) ∧
    (∀ fmt e, validate_file_format file.firstLine = .ok fmt →
      load_data fmt transformed file = .error e →
      rep = ⟨false, [s!"Error loading data: {e}"], [], none⟩) := by
  cases hv : validate_file_format file.firstLine with
  | error e =>
    simp only [run_full_validation, hv, Except.ok.injEq] at h
    subst h
    refine ⟨by simp, by simp, ?_, ?_⟩
    · intro e' he'
      injection he' with he'
      subst he'
      rfl
    · intro fmt e' hfmt hload
      exact absurd hfmt (by simp)
  | ok fmt =>
    cases hl : load_data fmt transformed file with
    | error e =>
      simp only [run_full_validation, hv, hl, Except.ok.injEq] at h
      subst h
      refine ⟨by simp, by simp, ?_, ?_⟩
      · intro e' he'
        exact absurd he' (by simp)
      · intro fmt' e' hfmt hload
        injection hfmt with hfmt
        subst hfmt
        rw [hl] at hload
        injection hload with hload
        subst hload
        rfl
    | ok df =>
      cases hq : validate_data_quality now df with
      | error e => simp [run_full_validation, hv, hl, hq] at h
      | ok wq =>
        cases hs : generate_summary_stats df with
        | error e => simp [run_full_validation, hv, hl, hq, hs] at h
        | ok st =>
          simp only [run_full_validation, hv, hl, hq, hs, Except.ok.injEq] at h
          subst h
          refine ⟨by simp, by simp, ?_, ?_⟩
          · intro e' he'
            exact absurd he' (by simp)
          · intro fmt' e' hfmt hload
            injection hfmt with hfmt
            subst hfmt
            rw [hl] at hload
            exact absurd hload (by simp)

theorem c2_passed_iff_no_errors_witness :
    ((Report.mk false ["Invalid CSV format - missing required headers"] [] none).passed = true) ↔
      (Report.mk false ["Invalid CSV format - missing required headers"] [] none).errors = [] :=
  (c2_passed_iff_no_errors (.error "na") ⟨["zzz"], []⟩ 0
    ⟨false, ["Invalid CSV format - missing required headers"], [], none⟩ rfl).1

/-- The timestamp column stays unconverted exactly when some present entry
fails to parse; missing entries alone never block the conversion. -/
theorem convertDates_eq_none_iff (cells : List (Option String)) :
    convertDates cells = none ↔ ∃ s, some s ∈ cells ∧ parseDate s = none := by
  induction cells with
  | nil => simp [convertDates]
  | cons c rest ih =>
    cases c with
    | none => simp [convertDates, ih]
    | some s =>
      cases hp : parseDate s with
      | none =>
        simp only [convertDates, hp]
        constructor
        · intro _
          exact ⟨s, List.mem_cons_self _ _, hp⟩
        · intro _
          trivial
      | some d =>
        simp only [convertDates, hp, Option.map_eq_none', ih, List.mem_cons]
        constructor
        · rintro ⟨s', hs', hps'⟩
          exact ⟨s', Or.inr hs', hps'⟩
        · rintro ⟨s', hs' | hs', hps'⟩
          · cases hs'
            rw [hp] at hps'
            exact absurd hps' (by simp)
          · exact ⟨s', hs', hps'⟩

/-- C3 fails on the code: a row whose required timestamp is unparseable does
not fail the load.  With the transform collaborator returning a Legacy-shaped
table whose single Date/Time value is not a date, load_data succeeds, the row
is kept, and the timestamp column is left as unconverted text rather than
valid timestamps. -/
theorem c3_unparseable_timestamp_loads :
    parseDate "garbage" = none ∧
    load_data .new
      (.ok ⟨["Date/Time", "Transaction Code", "Transaction Subcode", "Amount"],
            [[some "garbage", some "Trade", some "Buy", some "5"]]⟩)
      ⟨["Date/Time", "Transaction Code", "Transaction Subcode", "Amount"],
            [[some "garbage", some "Trade", some "Buy", some "5"]]⟩ =
      .ok ⟨["Date/Time", "Transaction Code", "Transaction Subcode", "Amount"],
           [[some "garbage", some "Trade", some "Buy", some "5"]], none⟩ := by
  exact ⟨rfl, rfl⟩

/-- C3 amended: whenever the Date/Time column exists, load_data succeeds and
keeps every record unchanged; the timestamp column is converted to dates
exactly when every present entry parses, and is otherwise silently left as
text — an unparseable required timestamp never produces a load error, so rows
of a loaded dataset need not carry valid timestamps. -/
theorem c3_load_keeps_unparseable_rows
    (file : Csv) (cells : List (Option String)) (transformed : Except String Csv)
    (h : file.column "Date/Time" = some cells) :
    load_data .legacy transformed file =
      .ok ⟨file.header, file.records, convertDates cells⟩ ∧
    load_data .new (.ok file) file =
      .ok ⟨file.header, file.records, convertDates cells⟩ ∧
    (convertDates cells = none ↔ ∃ s, some s ∈ cells ∧ parseDate s = none) := by
  refine ⟨?_, ?_, convertDates_eq_none_iff cells⟩ <;>
    simp [load_data, readCsvDates, h]

theorem c3_load_keeps_unparseable_rows_witness :
    load_data .legacy (.error "na") ⟨["Date/Time"], [[some "garbage2"]]⟩ =
      .ok ⟨["Date/Time"], [[some "garbage2"]], convertDates [some "garbage2"]⟩ :=
  (c3_load_keeps_unparseable_rows ⟨["Date/Time"], [[some "garbage2"]]⟩
    [some "garbage2"] (.error "na") rfl).1

/-- Inserting preserves the multiset of entries. -/
theorem perm_insertByCountDesc (p : String × Nat) (l : List (String × Nat)) :
    (insertByCountDesc p l).Perm (p :: l) := by
  induction l with
  | nil => exact List.Perm.refl _
  | cons q qs ih =>
    by_cases h : q.2 < p.2
    · simp only [insertByCountDesc, if_pos h]
      exact List.Perm.refl _
    · simp only [insertByCountDesc, if_neg h]
      exact (ih.cons q).trans (List.Perm.swap p q qs)

/-- Inserting preserves descending order of counts. -/
theorem sorted_insertByCountDesc (p : String × Nat) (l : List (String × Nat))
    (h : l.Pairwise fun a b => b.2 ≤ a.2) :
    (insertByCountDesc p l).Pairwise fun a b => b.2 ≤ a.2 := by
  induction l with
  | nil => simp [insertByCountDesc]
  | cons q qs ih =>
    rcases List.pairwise_cons.mp h with ⟨hq, hqs⟩
    by_cases hc : q.2 < p.2
    · simp only [insertByCountDesc, if_pos hc]
      refine List.pairwise_cons.mpr ⟨?_, h⟩
      intro b hb
      rcases List.mem_cons.mp hb with rfl | hb'
      · exact le_of_lt hc
      · exact le_trans (hq b hb') (le_of_lt hc)
    · simp only [insertByCountDesc, if_neg hc]
      refine List.pairwise_cons.mpr ⟨?_, ih hqs⟩
      intro b hb
      rcases List.mem_cons.mp ((perm_insertByCountDesc p qs).mem_iff.mp hb) with rfl | hb'
      · exact Nat.le_of_not_lt hc
      · exact hq b hb'

/-- The sort produces descending counts. -/
theorem sorted_sortByCountDesc (l : List (String × Nat)) :
    (sortByCountDesc l).Pairwise fun a b => b.2 ≤ a.2 := by
  induction l with
  | nil => simp [sortByCountDesc]
  | cons p ps ih => exact sorted_insertByCountDesc p _ ih

/-- The sort preserves the multiset of entries. -/
theorem perm_sortByCountDesc (l : List (String × Nat)) :
    (sortByCountDesc l).Perm l := by
  induction l with
  | nil => exact List.Perm.refl _
  | cons p ps ih => exact (perm_insertByCountDesc p _).trans (ih.cons p)

/-- C4 amended: the transaction-kind mapping of the summary stats pairs each
kind with its row count, but lists the kinds in descending order of count (the
value_counts order), not in first-seen order of the input rows: its entries
are a permutation of the first-seen enumeration with counts, sorted so that
counts never increase. -/
theorem c4_transaction_kind_counts_sorted :
    (∀ cells : List (Option String),
      ((valueCounts cells).Pairwise fun a b => b.2 ≤ a.2) ∧
      (valueCounts cells).Perm
        ((dedupFS (cells.filterMap id)).map fun k => (k, (cells.filterMap id).count k))) ∧
    (∀ f : LoadedFrame, "Transaction Code" ∈ f.cols → ∀ st,
      generate_summary_stats f = .ok st →
      st.transaction_types = valueCounts (f.colCells "Transaction Code")) := by
  constructor
  · intro cells
    exact ⟨sorted_sortByCountDesc _, perm_sortByCountDesc _⟩
  · intro f hm st hst
    have hstats : ∀ dr, (mkStats f dr).transaction_types =
        valueCounts (f.colCells "Transaction Code") := by
      intro dr
      simp [mkStats, hm]
    by_cases hd : "Date/Time" ∈ f.cols
    · cases hv : f.dtParsed with
      | none => simp [generate_summary_stats, hd, hv] at hst
      | some vals =>
        simp only [generate_summary_stats, if_pos hd, hv, Except.ok.injEq] at hst
        rw [← hst]
        exact hstats _
    · simp only [generate_summary_stats, if_neg hd, Except.ok.injEq] at hst
      rw [← hst]
      exact hstats _

/-- C4 fails on the code as claimed: value_counts lists kinds by descending
count, not first-seen order.  For input kinds Trade, Money Movement, Money
Movement the first-seen enumeration is Trade then Money Movement, but the
summary of the loaded dataset maps Money Movement first. -/
theorem c4_value_counts_not_first_seen :
    load_data .new (.ok ⟨["Date/Time", "Transaction Code"],
        [[some "1", some "Trade"], [some "1", some "Money Movement"],
         [some "1", some "Money Movement"]]⟩)
      ⟨["Date/Time", "Transaction Code"],
        [[some "1", some "Trade"], [some "1", some "Money Movement"],
         [some "1", some "Money Movement"]]⟩ =
      .ok ⟨["Date/Time", "Transaction Code"],
        [[some "1", some "Trade"], [some "1", some "Money Movement"],
         [some "1", some "Money Movement"]], some [some 1, some 1, some 1]⟩ ∧
    generate_summary_stats ⟨["Date/Time", "Transaction Code"],
        [[some "1", some "Trade"], [some "1", some "Money Movement"],
         [some "1", some "Money Movement"]], some [some 1, some 1, some 1]⟩ =
      .ok ⟨3, some "1 to 1", 0, [("Money Movement", 2), ("Trade", 1)], 0⟩ ∧
    dedupFS (List.filterMap id (LoadedFrame.colCells ⟨["Date/Time", "Transaction Code"],
        [[some "1", some "Trade"], [some "1", some "Money Movement"],
         [some "1", some "Money Movement"]], some [some 1, some 1, some 1]⟩
        "Transaction Code")) = ["Trade", "Money Movement"] ∧
    [("Money Movement", 2), ("Trade", 1)] ≠
      ([("Trade", 1), ("Money Movement", 2)] : List (String × Nat)) :=
  ⟨rfl, rfl, rfl, by decide⟩

theorem c4_transaction_kind_counts_sorted_witness :
    ((valueCounts [some "Trade", some "Money Movement", some "Money Movement"]).Pairwise
      fun a b => b.2 ≤ a.2) ∧
    (SummaryStats.mk 3 (some "1 to 1") 0 [("Money Movement", 2), ("Trade", 1)]
        0).transaction_types =
      valueCounts (LoadedFrame.colCells ⟨["Date/Time", "Transaction Code"],
        [[some "1", some "Trade"], [some "1", some "Money Movement"],
         [some "1", some "Money Movement"]], some [some 1, some 1, some 1]⟩
        "Transaction Code") :=
  ⟨(c4_transaction_kind_counts_sorted.1 _).1,
   c4_transaction_kind_counts_sorted.2 _ (by decide) _ rfl⟩

/-- C5 names a real defect of the code: the quality rules are not total over
loaded datasets missing a column.  On a loaded dataset with an Amount column
but no Transaction Code column the zero-amount rule dereferences the absent
Transaction Code column unguarded, so the quality stage raises KeyError and
the whole run crashes instead of silently skipping the rule as every other
missing-column case does. -/
theorem c5_missing_transaction_code_keyerror :
    validate_data_quality 100 ⟨["Date/Time", "Amount"], [[some "1", some "5"]],
        some [some 1]⟩ =
      .error "KeyError: Transaction Code" ∧
    run_full_validation (.ok ⟨["Date/Time", "Amount"], [[some "1", some "5"]]⟩)
        ⟨["Date/Time", "Amount"], [[some "1", some "5"]]⟩ 100 =
      .error "KeyError: Transaction Code" :=
  ⟨rfl, rfl⟩

/-- C6: the zero-amount rule counts rows whose coerced amount equals zero and
whose Transaction Code is not Receive Deliver.  A loaded single-row dataset
with amount 0 and kind Trade warns with count 1; the same row with kind
Receive Deliver produces no warning at all. -/
theorem c6_zero_amount_rule :
    load_data .new (.ok ⟨["Date/Time", "Transaction Code", "Amount"],
        [[some "1", some "Trade", some "0"]]⟩)
      ⟨["Date/Time", "Transaction Code", "Amount"],
        [[some "1", some "Trade", some "0"]]⟩ =
      .ok ⟨["Date/Time", "Transaction Code", "Amount"],
        [[some "1", some "Trade", some "0"]], some [some 1]⟩ ∧
    validate_data_quality 100 ⟨["Date/Time", "Transaction Code", "Amount"],
        [[some "1", some "Trade", some "0"]], some [some 1]⟩ =
      .ok ["1 transactions with zero amounts"] ∧
    validate_data_quality 100 ⟨["Date/Time", "Transaction Code", "Amount"],
        [[some "1", some "Receive Deliver", some "0"]], some [some 1]⟩ = .ok [] ∧
    zeroAmountCount [some ⟨0, 0⟩] [some "Trade"] = 1 ∧
    zeroAmountCount [some ⟨0, 0⟩] [some "Receive Deliver"] = 0 :=
  ⟨rfl, rfl, rfl, rfl, rfl⟩

/-- C7: the consistency check, per symbol and skipping symbols ending in /USD,
warns with the count of quantities having a non-zero fractional part.  For
AAPL with quantities 10 and 10.5 the warning names AAPL with count 1; for
BTC/USD with the same quantities no warning is produced. -/
theorem c7_fractional_quantity_rule :
    validate_transaction_consistency ⟨["Date/Time", "Symbol", "Quantity"],
        [[some "1", some "AAPL", some "10"], [some "1", some "AAPL", some "10.5"]],
        some [some 1, some 1]⟩ =
      ["Fractional quantities found for AAPL: 1 transactions"] ∧
    validate_transaction_consistency ⟨["Date/Time", "Symbol", "Quantity"],
        [[some "1", some "BTC/USD", some "10"], [some "1", some "BTC/USD", some "10.5"]],
        some [some 1, some 1]⟩ = [] ∧
    fractionalCount [some "10", some "10.5"] = 1 :=
  ⟨rfl, rfl, rfl⟩

/-- C10: in the consistency check a quantity cell that does not coerce to a
number counts as fractional, so a dataset whose only anomaly is one
unparseable quantity still triggers the fractional-quantity warning for its
symbol with that row in the count. -/
theorem c10_unparseable_quantity_counts :
    parseNumber "abc" = none ∧
    fractionalCount [some "10", some "abc"] = 1 ∧
    validate_transaction_consistency ⟨["Date/Time", "Symbol", "Quantity"],
        [[some "1", some "AAPL", some "10"], [some "1", some "AAPL", some "abc"]],
        some [some 1, some 1]⟩ =
      ["Fractional quantities found for AAPL: 1 transactions"] :=
  ⟨rfl, rfl, rfl⟩

/-- C8 fails on the code: the future-dates rule reads the wall clock, so two
runs of the full pipeline on the same input observing different current times
produce different reports — here a file with timestamp 5 warns about a future
date when run at time 0 and not when run at time 10. -/
theorem c8_wall_clock_nondeterminism :
    run_full_validation (.ok ⟨["Date/Time"], [[some "5"]]⟩) ⟨["Date/Time"], [[some "5"]]⟩ 0 =
      .ok ⟨true, [], ["1 transactions have future dates"], some ⟨1, some "5 to 5", 0, [], 0⟩⟩ ∧
    run_full_validation (.ok ⟨["Date/Time"], [[some "5"]]⟩) ⟨["Date/Time"], [[some "5"]]⟩ 10 =
      .ok ⟨true, [], [], some ⟨1, some "5 to 5", 0, [], 0⟩⟩ ∧
    (⟨true, [], ["1 transactions have future dates"], some ⟨1, some "5 to 5", 0, [], 0⟩⟩ : Report) ≠
      ⟨true, [], [], some ⟨1, some "5 to 5", 0, [], 0⟩⟩ :=
  ⟨rfl, rfl, by decide⟩

/-- The reference time enters the Date/Time rules only through the
future-dates count. -/
theorem dateRangeWarnings_time_congr (t1 t2 : Int) (f : LoadedFrame)
    (h : ∀ vals, f.dtParsed = some vals → futureCount t1 vals = futureCount t2 vals) :
    dateRangeWarnings t1 f = dateRangeWarnings t2 f := by
  unfold dateRangeWarnings
  by_cases hd : "Date/Time" ∈ f.cols
  · simp only [if_pos hd]
    cases hv : f.dtParsed with
    | none => rfl
    | some vals => simp only [h vals hv]
  · simp only [if_neg hd]

/-- The reference time enters the quality stage only through the future-dates
count. -/
theorem validate_data_quality_time_congr (t1 t2 : Int) (f : LoadedFrame)
    (h : ∀ vals, f.dtParsed = some vals → futureCount t1 vals = futureCount t2 vals) :
    validate_data_quality t1 f = validate_data_quality t2 f := by
  unfold validate_data_quality
  rw [dateRangeWarnings_time_congr t1 t2 f h]

/-- C8 amended: the pipeline is a pure function of the input file, the
transform collaborator result and the observed current time — two runs agree
whenever they observe the same future-dates count (in particular whenever they
observe the same current time); the only nondeterminism across real runs is
the datetime.now() read in the future-dates rule. -/
theorem c8_deterministic_given_time :
    (∀ (t1 t2 : Int) (f : LoadedFrame),
      (∀ vals, f.dtParsed = some vals → futureCount t1 vals = futureCount t2 vals) →
      validate_data_quality t1 f = validate_data_quality t2 f) ∧
    (∀ (transformed : Except String Csv) (file : Csv) (t1 t2 : Int),
      (∀ fmt f vals, load_data fmt transformed file = .ok f → f.dtParsed = some vals →
        futureCount t1 vals = futureCount t2 vals) →
      run_full_validation transformed file t1 = run_full_validation transformed file t2) := by
  refine ⟨validate_data_quality_time_congr, ?_⟩
  intro transformed file t1 t2 h
  unfold run_full_validation
  cases hv : validate_file_format file.firstLine with
  | error e => rfl
  | ok fmt =>
    dsimp only
    cases hl : load_data fmt transformed file with
    | error e => rfl
    | ok df =>
      dsimp only
      rw [validate_data_quality_time_congr t1 t2 df fun vals hvals => h fmt df vals hl hvals]

theorem c8_deterministic_given_time_witness :
    run_full_validation (.ok ⟨["Date/Time"], [[some "1"]]⟩) ⟨["Date/Time"], [[some "1"]]⟩ 3 =
      run_full_validation (.ok ⟨["Date/Time"], [[some "1"]]⟩) ⟨["Date/Time"], [[some "1"]]⟩ 4 := by
  refine c8_deterministic_given_time.2 _ _ 3 4 ?_
  intro fmt f vals hl hv
  have hall : load_data fmt (.ok ⟨["Date/Time"], [[some "1"]]⟩) ⟨["Date/Time"], [[some "1"]]⟩ =
      .ok ⟨["Date/Time"], [[some "1"]], some [some 1]⟩ := by
    cases fmt <;> rfl
  have hf := (hall.symm.trans hl)
  injection hf with hf
  subst hf
  have hvals : some [some (1 : Int)] = some vals := hv
  injection hvals with hvals
  subst hvals
  rfl

/-- C9 fails on the code: summarize is not total over loaded datasets.  A
dataset loaded from a file whose Date/Time value is unparseable keeps the
timestamp column as text, and generate_summary_stats then calls date() on the
string minimum of that column and raises AttributeError instead of returning a
stats record. -/
theorem c9_summary_fails_on_text_timestamps :
    load_data .new (.ok ⟨["Date/Time"], [[some "bad"]]⟩) ⟨["Date/Time"], [[some "bad"]]⟩ =
      .ok ⟨["Date/Time"], [[some "bad"]], none⟩ ∧
    generate_summary_stats ⟨["Date/Time"], [[some "bad"]], none⟩ =
      .error "AttributeError: str object has no attribute date" :=
  ⟨rfl, rfl⟩

/-- C9 amended: generate_summary_stats is total on every loaded dataset whose
timestamp column (when present) was actually converted to dates: it then
returns a stats record, and every stat whose column is absent is the zero or
empty value rather than an error.  It fails only on the unconverted-text
timestamp case exhibited separately. -/
theorem c9_summary_total_when_dates_parsed (f : LoadedFrame)
    (h : "Date/Time" ∈ f.cols → f.dtParsed ≠ none) :
    ∃ st, generate_summary_stats f = .ok st ∧
      st.total_transactions = f.records.length ∧
      ("Date/Time" ∉ f.cols → st.date_range = none) ∧
      ("Symbol" ∉ f.cols → st.unique_symbols = 0) ∧
      ("Transaction Code" ∉ f.cols → st.transaction_types = []) ∧
      ("Amount" ∉ f.cols → st.total_volume = 0) := by
  by_cases hd : "Date/Time" ∈ f.cols
  · cases hv : f.dtParsed with
    | none => exact absurd hv (h hd)
    | some vals =>
      simp only [generate_summary_stats, if_pos hd, hv]
      refine ⟨_, rfl, ?_, ?_, ?_, ?_, ?_⟩
      · simp [mkStats]
      · intro hnd
        exact absurd hd hnd
      · intro hns
        simp [mkStats, hns]
      · intro hnt
        simp [mkStats, hnt]
      · intro hna
        simp [mkStats, hna]
  · simp only [generate_summary_stats, if_neg hd]
    refine ⟨_, rfl, ?_, ?_, ?_, ?_, ?_⟩
    · simp [mkStats]
    · intro _
      simp [mkStats]
    · intro hns
      simp [mkStats, hns]
    · intro hnt
      simp [mkStats, hnt]
    · intro hna
      simp [mkStats, hna]

theorem c9_summary_total_when_dates_parsed_witness :
    ∃ st, generate_summary_stats ⟨["Date/Time"], [], some []⟩ = .ok st ∧
      st.total_transactions = ([] : List (List (Option String))).length ∧
      ("Date/Time" ∉ (["Date/Time"] : List String) → st.date_range = none) ∧
      ("Symbol" ∉ (["Date/Time"] : List String) → st.unique_symbols = 0) ∧
      ("Transaction Code" ∉ (["Date/Time"] : List String) → st.transaction_types = []) ∧
      ("Amount" ∉ (["Date/Time"] : List String) → st.total_volume = 0) :=
  c9_summary_total_when_dates_parsed ⟨["Date/Time"], [], some []⟩ (fun _ => by decide)
